import Mathlib

/-!
Shallow embedding of `src/AssetExtract.py`: a command-line script that walks a
directory tree, loads every file whose name contains "ASTC" with the UnityPy
library, and writes out textures, sprites, text assets and MonoBehaviour
typetrees grouped by object type.  Library effects (loading, reading objects,
saving images, writing files) are modelled by outcome fields on the object
model; the script's own control flow, naming and counting logic is translated
directly from the source.
-/

namespace AssetExtract

/-- Lowercase a string, as Python `str.lower` restricted to ASCII text. -/
def lowerStr (s : String) : String := String.mk (s.data.map Char.toLower)

/-- Uppercase a string, as Python `str.upper` restricted to ASCII text. -/
def upperStr (s : String) : String := String.mk (s.data.map Char.toUpper)

/-- Python substring test `pat in s`. -/
def hasSubstr (s pat : String) : Bool :=
  (List.range (s.data.length + 1)).any fun i =>
    (s.data.drop i).take pat.data.length == pat.data

/-- Python `os.path.basename` on posix: the part after the last slash. -/
def basenameStr (s : String) : String :=
  String.mk ((s.data.reverse.takeWhile fun c => c != '/').reverse)

/-- Python `os.path.splitext` restricted to a path component without slashes:
the stem before the final dot, except that a run of leading dots never starts
an extension. -/
def splitextStem (s : String) : String :=
  let cs := s.data
  match ((List.range cs.length).filter fun i => cs.getD i ' ' == '.').getLast? with
  | none => s
  | some d =>
    if (List.range d).any fun i => cs.getD i ' ' != '.' then String.mk (cs.take d) else s

/-- Output stem for Texture2D, Sprite and TextAsset files: the uppercased
basename of the container path with its extension removed (lines 87 and 93 of
the source: `os.path.basename(path).upper()` followed by `os.path.splitext`). -/
def outStem (path : String) : String := splitextStem (upperStr (basenameStr path))

/-- Python `os.path.isabs` on posix. -/
def isAbs (p : String) : Bool := p.data.head? == some '/'

/-- Python `os.path.join` on posix, two arguments. -/
def pjoin (a b : String) : String :=
  if isAbs b then b
  else if a = "" ∨ a.data.getLast? == some '/' then a ++ b
  else a ++ "/" ++ b

/-- Split a character list on a separator character, as Python `str.split`. -/
def splitOnChar (sep : Char) (cs : List Char) : List (List Char) :=
  cs.foldr
    (fun ch acc =>
      match acc with
      | [] => [[ch]]
      | g :: gs => if ch == sep then [] :: g :: gs else (ch :: g) :: gs)
    [[]]

/-- Component-processing loop of Python `posixpath.normpath`: drop empty and
`.` components, and resolve `..` against the accumulated stack. -/
def normComps (initSlash : Bool) : List String → List String → List String
  | acc, [] => acc.reverse
  | acc, c :: rest =>
    if c = "" ∨ c = "." then normComps initSlash acc rest
    else if c ≠ ".." then normComps initSlash (c :: acc) rest
    else
      match acc with
      | [] => if initSlash then normComps initSlash [] rest else normComps initSlash [".."] rest
      | top :: tl =>
        if top = ".." then normComps initSlash (c :: top :: tl) rest
        else normComps initSlash tl rest

/-- Join path components with single slashes. -/
def joinSlash : List String → String
  | [] => ""
  | [x] => x
  | x :: xs => x ++ "/" ++ joinSlash xs

/-- Python `posixpath.normpath`. -/
def normpath (p : String) : String :=
  if p = "" then "." else
  let slashes := (p.data.takeWhile fun c => c == '/').length
  let lead : String := if slashes == 2 then "//" else if slashes != 0 then "/" else ""
  let comps := (splitOnChar '/' p.data).map String.mk
  let joined := lead ++ joinSlash (normComps (slashes != 0) [] comps)
  if joined = "" then "." else joined

/-- Python `os.path.abspath` relative to an explicit working directory:
join with the working directory when relative, then normalize. -/
def abspath (cwd p : String) : String := normpath (pjoin cwd p)

/-- One optional argument defined by `argparse.add_argument` in `main`. -/
structure ArgOpt where
  flag : String
  nargs : Nat
deriving DecidableEq

/-- The options defined on the parser in `main` (source lines 29-32): exactly
one, `-file` taking two values. -/
def mainOpts : List ArgOpt := [⟨"-file", 2⟩]

/-- Outcome of command-line parsing. -/
inductive ParseResult where
  | parsed (fileArg : Option (String × String))
  | helpShown
  | parseError (msg : String)
deriving DecidableEq

/-- Model of argparse behaviour for the parser configured in `main` (lines
29-33): the automatic `-h` and `--help` flags show the help text, `-file A B`
stores its two values (a later occurrence overriding an earlier one), and any
other token is rejected as unrecognized because the parser defines no further
options and no positional arguments. -/
def parseArgv : List String → ParseResult
  | [] => .parsed none
  | a :: rest =>
    if a = "-h" ∨ a = "--help" then .helpShown
    else if a = "-file" then
      match rest with
      | x :: y :: rest2 =>
        match parseArgv rest2 with
        | .parsed none => .parsed (some (x, y))
        | r => r
      | _ => .parseError "argument -file: expected 2 arguments"
    else .parseError ("unrecognized arguments: " ++ a)

/-- Lines 36-42 of `main`: both directories default to the current working
directory, and `-file` overrides them with the absolute paths of its values. -/
def resolveDirs (fileArg : Option (String × String)) (cwd : String) : String × String :=
  match fileArg with
  | none => (cwd, cwd)
  | some ab => (abspath cwd ab.1, abspath cwd ab.2)

/-- Text encoding error mode passed to `open` for TextAsset writes. -/
inductive Enc where
  | surrogatepass
  | replace
deriving DecidableEq

/-- Outcome of the first TextAsset write attempt (source lines 136-137). -/
inductive TAWrite where
  | ok
  | unicodeErr
  | otherErr
deriving DecidableEq

/-- Model of a UnityPy object together with the outcomes of the library
operations the script performs on it: `nodes` is `serialized_type.nodes`,
`tree` the typetree dictionary, `script` the text `str(data.m_Script)`,
`readOk` whether `read`/`read_typetree` succeeds, `saveOk` whether the
image save or json dump succeeds, `taFirst` the outcome of the first
TextAsset write and `taRetryOk` that of the retry. -/
structure UObject where
  typeName : String
  pathId : Int
  nodes : List String
  tree : List (String × String)
  script : String
  readOk : Bool
  saveOk : Bool
  taFirst : TAWrite
  taRetryOk : Bool
deriving DecidableEq

/-- Content of a written output file. -/
inductive Content where
  | png
  | text (mode : Enc) (body : String)
  | json (tree : List (String × String))
deriving DecidableEq

/-- Destination of a write: output root, per-type subdirectory, filename. -/
structure Dest where
  root : String
  sub : String
  file : String
deriving DecidableEq

/-- Observable actions of the script. -/
inductive Event where
  | load (fileName : String)
  | write (dest : Dest) (content : Content)
  | errorObj (kind path : String)
  | retryNote (path : String)
  | skipMono (pathId : Int)
  | errorFile (fileName : String)
deriving DecidableEq

/-- Result of `UnityPy.load`: the container mapping and the flat object
list. -/
structure Env where
  container : List (String × UObject)
  objects : List UObject
deriving DecidableEq

/-- A file produced by the directory walk, together with its load outcome;
`none` models an exception that escapes the inner per-object handlers. -/
structure FS where
  name : String
  load : Option Env
deriving DecidableEq

/-- Counters and event trace of a run of `unpack_all_assets`. -/
structure Result where
  astcCount : Nat
  failedFiles : Nat
  events : List Event
deriving DecidableEq

/-- Line 77: `extract_resources = "resources" in file_name_lower`. -/
def extractResources (fileName : String) : Bool :=
  hasSubstr (lowerStr fileName) "resources"

/-- Line 78: `extract_metadata = "metadata" in file_name_lower`. -/
def extractMetadata (fileName : String) : Bool :=
  hasSubstr (lowerStr fileName) "metadata"

/-- MonoBehaviour output name, line 157:
`tree.get("m_Name", "MONO_<path_id>")`. -/
def monoName (obj : UObject) : String :=
  (List.lookup "m_Name" obj.tree).getD ("MONO_" ++ toString obj.pathId)

/-- Lines 83-98: one container item in the Texture2D loop. -/
def texStep (df : String) (item : String × UObject) : List Event :=
  if item.2.typeName = "Texture2D" then
    if item.2.readOk && item.2.saveOk then
      [.write ⟨df, "Texture2D", outStem item.1 ++ ".png"⟩ .png]
    else [.errorObj "Texture2D" item.1]
  else []

/-- Lines 103-118: one container item in the Sprite loop. -/
def spriteStep (df : String) (item : String × UObject) : List Event :=
  if item.2.typeName = "Sprite" then
    if item.2.readOk && item.2.saveOk then
      [.write ⟨df, "Sprite", outStem item.1 ++ ".png"⟩ .png]
    else [.errorObj "Sprite" item.1]
  else []

/-- Lines 123-147: one container item in the TextAsset loop, including the
retry with replacement characters after a `UnicodeEncodeError`. -/
def textStep (df : String) (item : String × UObject) : List Event :=
  if item.2.typeName = "TextAsset" then
    if item.2.readOk then
      match item.2.taFirst with
      | .ok =>
        [.write ⟨df, "TextAsset", outStem item.1 ++ ".txt"⟩ (.text .surrogatepass item.2.script)]
      | .unicodeErr =>
        if item.2.taRetryOk then
          [.retryNote item.1,
           .write ⟨df, "TextAsset", outStem item.1 ++ ".txt"⟩ (.text .replace item.2.script)]
        else [.retryNote item.1, .errorObj "TextAsset-retry" item.1]
      | .otherErr => [.errorObj "TextAsset" item.1]
    else [.errorObj "TextAsset" item.1]
  else []

/-- Lines 152-166: one object in the MonoBehaviour loop; an object without
typetree nodes is skipped with a message. -/
def monoStep (df : String) (obj : UObject) : List Event :=
  if obj.typeName = "MonoBehaviour" then
    if obj.nodes = [] then [.skipMono obj.pathId]
    else if obj.readOk && obj.saveOk then
      [.write ⟨df, "MonoBehaviour", monoName obj ++ ".json"⟩ (.json obj.tree)]
    else [.errorObj "MonoBehaviour" (toString obj.pathId)]
  else []

/-- Events of the Texture2D loop over the whole container. -/
def texPart (df : String) (env : Env) : List Event := env.container.flatMap (texStep df)

/-- Events of the Sprite loop over the whole container. -/
def spritePart (df : String) (env : Env) : List Event := env.container.flatMap (spriteStep df)

/-- Events of the TextAsset loop over the whole container. -/
def textPart (df : String) (env : Env) : List Event := env.container.flatMap (textStep df)

/-- Events of the MonoBehaviour loop over the flat object list. -/
def monoPart (df : String) (env : Env) : List Event := env.objects.flatMap (monoStep df)

/-- Lines 76-166: the per-file extraction after a successful load, with the
four guarded loops in source order. -/
def extractEvents (df fileName : String) (env : Env) : List Event :=
  (if extractResources fileName || !(extractResources fileName || extractMetadata fileName)
     then texPart df env else [])
  ++ (if extractResources fileName || !(extractResources fileName || extractMetadata fileName)
        then spritePart df env else [])
  ++ (if extractMetadata fileName || !(extractResources fileName || extractMetadata fileName)
        then textPart df env else [])
  ++ (if !(extractResources fileName || extractMetadata fileName)
        then monoPart df env else [])

/-- Lines 61-170: handling of one file from the walk.  A name without "ASTC"
is skipped entirely; otherwise the file is counted, loaded, and either
extracted or counted as failed when the load raises. -/
def processFile (df : String) (f : FS) (r : Result) : Result :=
  if hasSubstr f.name "ASTC" then
    match f.load with
    | some env =>
      { r with astcCount := r.astcCount + 1,
               events := r.events ++ Event.load f.name :: extractEvents df f.name env }
    | none =>
      { r with astcCount := r.astcCount + 1,
               failedFiles := r.failedFiles + 1,
               events := r.events ++ [Event.load f.name, Event.errorFile f.name] }
  else r

/-- Lines 53-175: fold of `processFile` over the walk of the source folder,
starting from zero counters and an empty trace. -/
def unpack_all_assets (df : String) (walk : List (List FS)) : Result :=
  walk.foldl (fun r files => files.foldl (fun acc f => processFile df f acc) r) ⟨0, 0, []⟩

/-- Number of files in the walk whose name contains "ASTC". -/
def countASTC (walk : List (List FS)) : Nat :=
  (walk.map fun files => files.countP fun f => hasSubstr f.name "ASTC").sum

/-- Number of ASTC files in the walk whose load raises. -/
def countFailedLoads (walk : List (List FS)) : Nat :=
  (walk.map fun files => files.countP fun f => hasSubstr f.name "ASTC" && f.load.isNone).sum

/-- Lines 36-51 of `main`: resolve the directories, then a single call of
`unpack_all_assets` on the walk of the input directory. -/
def mainRun (fileArg : Option (String × String)) (cwd : String) (walk : List (List FS)) : Result :=
  unpack_all_assets (resolveDirs fileArg cwd).2 walk

/-- Sample Texture2D object for concrete instantiations. -/
def sampleTex : UObject := ⟨"Texture2D", 1, [], [], "", true, true, .ok, true⟩

/-- Sample Sprite object for concrete instantiations. -/
def sampleSprite : UObject := ⟨"Sprite", 2, [], [], "", true, true, .ok, true⟩

/-- Sample TextAsset object for concrete instantiations. -/
def sampleText : UObject := ⟨"TextAsset", 3, [], [], "hello", true, true, .ok, true⟩

/-- Sample MonoBehaviour object for concrete instantiations. -/
def sampleMono : UObject :=
  ⟨"MonoBehaviour", 7, ["root"], [("m_Name", "Cfg")], "", true, true, .ok, true⟩

/-- Sample load result for concrete instantiations. -/
def sampleEnv : Env :=
  ⟨[("a/tex.dds", sampleTex), ("a/spr.png", sampleSprite), ("a/note.bytes", sampleText)],
   [sampleMono]⟩

/-- Counter effect of one `processFile` step. -/
theorem processFile_counts (df : String) (f : FS) (r : Result) :
    (processFile df f r).astcCount
        = r.astcCount + (if hasSubstr f.name "ASTC" then 1 else 0)
      ∧ (processFile df f r).failedFiles
        = r.failedFiles + (if hasSubstr f.name "ASTC" && f.load.isNone then 1 else 0) := by
  unfold processFile
  cases h : hasSubstr f.name "ASTC" <;> cases hl : f.load <;> simp [h, hl]

/-- Counter effect of the fold over the files of one directory. -/
theorem foldlFile_counts (df : String) (files : List FS) (r : Result) :
    (files.foldl (fun acc f => processFile df f acc) r).astcCount
        = r.astcCount + files.countP (fun f => hasSubstr f.name "ASTC")
      ∧ (files.foldl (fun acc f => processFile df f acc) r).failedFiles
        = r.failedFiles + files.countP (fun f => hasSubstr f.name "ASTC" && f.load.isNone) := by
  induction files generalizing r with
  | nil => simp
  | cons f fs ih =>
    rw [List.foldl_cons]
    rcases ih (processFile df f r) with ⟨ha, hf⟩
    rcases processFile_counts df f r with ⟨h1, h2⟩
    constructor
    · rw [ha, h1]
      simp only [List.countP_cons]
      omega
    · rw [hf, h2]
      simp only [List.countP_cons]
      omega

/-- Counter effect of the fold over the whole walk. -/
theorem unpackFold_counts (df : String) (walk : List (List FS)) (r : Result) :
    ((walk.foldl (fun r files => files.foldl (fun acc f => processFile df f acc) r) r).astcCount
        = r.astcCount + countASTC walk)
      ∧ ((walk.foldl (fun r files => files.foldl (fun acc f => processFile df f acc) r) r).failedFiles
        = r.failedFiles + countFailedLoads walk) := by
  induction walk generalizing r with
  | nil => simp [countASTC, countFailedLoads]
  | cons fs ws ih =>
    rw [List.foldl_cons]
    rcases ih (fs.foldl (fun acc f => processFile df f acc) r) with ⟨ha, hf⟩
    rcases foldlFile_counts df fs r with ⟨h1, h2⟩
    constructor
    · rw [ha, h1]
      simp only [countASTC, List.map_cons, List.sum_cons]
      omega
    · rw [hf, h2]
      simp only [countFailedLoads, List.map_cons, List.sum_cons]
      omega

/-- The two counters of a full run equal the corresponding counts over the
walk. -/
theorem unpack_counts (df : String) (walk : List (List FS)) :
    (unpack_all_assets df walk).astcCount = countASTC walk
      ∧ (unpack_all_assets df walk).failedFiles = countFailedLoads walk := by
  have h := unpackFold_counts df walk ⟨0, 0, []⟩
  simpa [unpack_all_assets] using h

/-- Failed loads are a subcount of the ASTC files. -/
theorem countFailed_le_countASTC (walk : List (List FS)) :
    countFailedLoads walk ≤ countASTC walk := by
  induction walk with
  | nil => simp [countASTC, countFailedLoads]
  | cons fs ws ih =>
    simp only [countASTC, countFailedLoads, List.map_cons, List.sum_cons] at ih ⊢
    have h : (fs.countP fun f => hasSubstr f.name "ASTC" && f.load.isNone)
        ≤ fs.countP fun f => hasSubstr f.name "ASTC" := by
      refine List.countP_mono_left ?_
      intro a _ hh
      exact ((Bool.and_eq_true _ _).mp hh).1
    omega

/-- A loaded file never contributes to the failed-file counter. -/
theorem processFile_loaded_failedFiles (df name : String) (env : Env) (r : Result) :
    (processFile df ⟨name, some env⟩ r).failedFiles = r.failedFiles := by
  unfold processFile
  cases h : hasSubstr name "ASTC" <;> simp [h]

/-- Membership transfer from one step into the flat-mapped loop. -/
theorem mem_of_step {α : Type} {step : α → List Event} {l : List α}
    {item : α} {e : Event} (hm : item ∈ l) (he : e ∈ step item) :
    e ∈ l.flatMap step :=
  List.mem_flatMap.mpr ⟨item, hm, he⟩

/-- Claim C2: `unpack_all_assets` processes exactly the files of the walk
whose name contains "ASTC"; a file without that substring is skipped with no
load, no output and unchanged counters, and the ASTC counter equals the
number of matching files. -/
theorem astc_filter_processing :
    (∀ df f r, hasSubstr f.name "ASTC" = false → processFile df f r = r)
      ∧ (∀ df walk, (unpack_all_assets df walk).astcCount = countASTC walk) := by
  constructor
  · intro df f r h
    unfold processFile
    simp [h]
  · intro df walk
    exact (unpack_counts df walk).1

/-- Concrete check for claim C2: a file whose name lacks "ASTC" leaves the
state untouched. -/
theorem astc_filter_processing_check :
    processFile "out" ⟨"level0", some sampleEnv⟩ ⟨2, 1, []⟩ = ⟨2, 1, []⟩ :=
  astc_filter_processing.1 "out" ⟨"level0", some sampleEnv⟩ ⟨2, 1, []⟩ (by decide)

/-- Claim C4: a load failure on an ASTC file is caught, logged, and counted
as exactly one failed file; per-object failures are caught and logged without
touching the failed counter; the final counters report the number of ASTC
files and of failed files, with failed never exceeding encountered. -/
theorem exception_handling_and_counters :
    (∀ df f r, hasSubstr f.name "ASTC" = true → f.load = none →
        processFile df f r
          = ⟨r.astcCount + 1, r.failedFiles + 1,
             r.events ++ [Event.load f.name, Event.errorFile f.name]⟩)
      ∧ (∀ df name env r, (processFile df ⟨name, some env⟩ r).failedFiles = r.failedFiles)
      ∧ (∀ df path obj, obj.typeName = "Texture2D" → (obj.readOk && obj.saveOk) = false →
          texStep df (path, obj) = [Event.errorObj "Texture2D" path])
      ∧ (∀ df walk, (unpack_all_assets df walk).astcCount = countASTC walk
            ∧ (unpack_all_assets df walk).failedFiles = countFailedLoads walk)
      ∧ (∀ df walk,
          (unpack_all_assets df walk).failedFiles ≤ (unpack_all_assets df walk).astcCount) := by
  refine ⟨?_, ?_, ?_, ?_, ?_⟩
  · intro df f r h hl
    unfold processFile
    simp [h, hl]
  · intro df name env r
    exact processFile_loaded_failedFiles df name env r
  · intro df path obj ht hro
    simp [texStep, ht, hro]
  · intro df walk
    exact unpack_counts df walk
  · intro df walk
    rw [(unpack_counts df walk).1, (unpack_counts df walk).2]
    exact countFailed_le_countASTC walk

/-- Concrete check for claim C4: load failure increments both counters by
one and is logged; a loaded file and a failed object write leave the failed
counter alone. -/
theorem exception_handling_and_counters_check :
    processFile "out" ⟨"xASTC", none⟩ ⟨0, 0, []⟩
        = ⟨0 + 1, 0 + 1, [] ++ [Event.load "xASTC", Event.errorFile "xASTC"]⟩
      ∧ (processFile "out" ⟨"xASTC", some sampleEnv⟩ ⟨0, 0, []⟩).failedFiles = 0
      ∧ texStep "out" ("p/q.dds", ⟨"Texture2D", 1, [], [], "", false, true, .ok, true⟩)
          = [Event.errorObj "Texture2D" "p/q.dds"] :=
  ⟨exception_handling_and_counters.1 "out" ⟨"xASTC", none⟩ ⟨0, 0, []⟩ (by decide) rfl,
   exception_handling_and_counters.2.1 "out" "xASTC" sampleEnv ⟨0, 0, []⟩,
   exception_handling_and_counters.2.2.1 "out" "p/q.dds"
     ⟨"Texture2D", 1, [], [], "", false, true, .ok, true⟩ rfl (by decide)⟩

/-- Claim C5: without `-file` both directories are the current working
directory; with `-file` the absolute paths of the two values are used, the
absolutization being join-with-cwd plus normalization as in
`os.path.abspath`. -/
theorem cli_directory_resolution :
    (∀ cwd, resolveDirs none cwd = (cwd, cwd))
      ∧ (∀ cwd a b, resolveDirs (some (a, b)) cwd = (abspath cwd a, abspath cwd b))
      ∧ abspath "/work" "x/./y/../z" = "/work/x/z"
      ∧ abspath "/work" "/abs/q" = "/abs/q" :=
  ⟨fun _ => rfl, fun _ _ _ => rfl, by decide, by decide⟩

/-- Claim C9: a MonoBehaviour whose serialized type has no typetree nodes
produces only a skip message and no write, and for a loaded file the counters
do not depend on the objects inside it at all. -/
theorem mono_without_nodes_skipped :
    (∀ df obj, obj.typeName = "MonoBehaviour" → obj.nodes = [] →
        monoStep df obj = [Event.skipMono obj.pathId])
      ∧ (∀ df name env envAlt r,
          (processFile df ⟨name, some env⟩ r).astcCount
              = (processFile df ⟨name, some envAlt⟩ r).astcCount
            ∧ (processFile df ⟨name, some env⟩ r).failedFiles
              = (processFile df ⟨name, some envAlt⟩ r).failedFiles) := by
  constructor
  · intro df obj ht hn
    simp [monoStep, ht, hn]
  · intro df name env envAlt r
    unfold processFile
    cases h : hasSubstr name "ASTC" <;> simp [h]

/-- Concrete check for claim C9: a nodeless MonoBehaviour yields exactly the
skip event. -/
theorem mono_without_nodes_skipped_check :
    monoStep "out" ⟨"MonoBehaviour", 9, [], [], "", true, true, .ok, true⟩
        = [Event.skipMono 9]
      ∧ (processFile "out" ⟨"ASTC", some sampleEnv⟩ ⟨0, 0, []⟩).failedFiles
          = (processFile "out" ⟨"ASTC", some ⟨[], []⟩⟩ ⟨0, 0, []⟩).failedFiles :=
  ⟨mono_without_nodes_skipped.1 "out"
     ⟨"MonoBehaviour", 9, [], [], "", true, true, .ok, true⟩ rfl rfl,
   (mono_without_nodes_skipped.2 "out" "ASTC" sampleEnv ⟨[], []⟩ ⟨0, 0, []⟩).2⟩

/-- Claim C10: after a `UnicodeEncodeError` the TextAsset write is retried
exactly once to the same destination with replacement-character encoding; a
different first-write exception or a failing retry is only logged, and none
of this touches the failed-file counter. -/
theorem textasset_unicode_retry :
    (∀ df path obj, obj.typeName = "TextAsset" → obj.readOk = true →
        obj.taFirst = TAWrite.unicodeErr → obj.taRetryOk = true →
        textStep df (path, obj)
          = [Event.retryNote path,
             Event.write ⟨df, "TextAsset", outStem path ++ ".txt"⟩
               (Content.text Enc.replace obj.script)])
      ∧ (∀ df path obj, obj.typeName = "TextAsset" → obj.readOk = true →
          obj.taFirst = TAWrite.unicodeErr → obj.taRetryOk = false →
          textStep df (path, obj)
            = [Event.retryNote path, Event.errorObj "TextAsset-retry" path])
      ∧ (∀ df path obj, obj.typeName = "TextAsset" → obj.readOk = true →
          obj.taFirst = TAWrite.otherErr →
          textStep df (path, obj) = [Event.errorObj "TextAsset" path])
      ∧ (∀ df name env r, (processFile df ⟨name, some env⟩ r).failedFiles = r.failedFiles) := by
  refine ⟨?_, ?_, ?_, ?_⟩
  · intro df path obj ht hr hu hret
    simp [textStep, ht, hr, hu, hret]
  · intro df path obj ht hr hu hret
    simp [textStep, ht, hr, hu, hret]
  · intro df path obj ht hr ho
    simp [textStep, ht, hr, ho]
  · intro df name env r
    exact processFile_loaded_failedFiles df name env r

/-- Concrete check for claim C10: the three TextAsset failure shapes on
concrete objects. -/
theorem textasset_unicode_retry_check :
    textStep "out" ("a/u.bytes", ⟨"TextAsset", 4, [], [], "s", true, true, .unicodeErr, true⟩)
        = [Event.retryNote "a/u.bytes",
           Event.write ⟨"out", "TextAsset", outStem "a/u.bytes" ++ ".txt"⟩
             (Content.text Enc.replace "s")]
      ∧ textStep "out" ("a/v.bytes", ⟨"TextAsset", 5, [], [], "s", true, true, .unicodeErr, false⟩)
          = [Event.retryNote "a/v.bytes", Event.errorObj "TextAsset-retry" "a/v.bytes"]
      ∧ textStep "out" ("a/w.bytes", ⟨"TextAsset", 6, [], [], "s", true, true, .otherErr, true⟩)
          = [Event.errorObj "TextAsset" "a/w.bytes"] :=
  ⟨textasset_unicode_retry.1 "out" "a/u.bytes"
     ⟨"TextAsset", 4, [], [], "s", true, true, .unicodeErr, true⟩ rfl rfl rfl rfl,
   textasset_unicode_retry.2.1 "out" "a/v.bytes"
     ⟨"TextAsset", 5, [], [], "s", true, true, .unicodeErr, false⟩ rfl rfl rfl rfl,
   textasset_unicode_retry.2.2.1 "out" "a/w.bytes"
     ⟨"TextAsset", 6, [], [], "s", true, true, .otherErr, true⟩ rfl rfl rfl⟩

/-- Claim C3: the lowercased filename decides the selection: "resources"
selects the Texture2D and Sprite loops, "metadata" the TextAsset loop,
neither substring selects all four loops, and the MonoBehaviour loop runs
only in the neither case. -/
theorem filename_dispatch :
    ∀ df fileName env,
      (extractResources fileName = true → extractMetadata fileName = false →
          extractEvents df fileName env = texPart df env ++ spritePart df env)
        ∧ (extractResources fileName = false → extractMetadata fileName = true →
            extractEvents df fileName env = textPart df env)
        ∧ (extractResources fileName = false → extractMetadata fileName = false →
            extractEvents df fileName env
              = texPart df env ++ spritePart df env ++ textPart df env ++ monoPart df env)
        ∧ (extractResources fileName = true → extractMetadata fileName = true →
            extractEvents df fileName env
              = texPart df env ++ spritePart df env ++ textPart df env) := by
  intro df fileName env
  refine ⟨fun h1 h2 => ?_, fun h1 h2 => ?_, fun h1 h2 => ?_, fun h1 h2 => ?_⟩ <;>
    simp [extractEvents, h1, h2]

/-- Concrete check for claim C3: the four selection cases on concrete
filenames. -/
theorem filename_dispatch_check :
    extractEvents "out" "ASTC_Resources_01" sampleEnv
        = texPart "out" sampleEnv ++ spritePart "out" sampleEnv
      ∧ extractEvents "out" "ASTC_MetaData_01" sampleEnv = textPart "out" sampleEnv
      ∧ extractEvents "out" "ASTC_plain" sampleEnv
          = texPart "out" sampleEnv ++ spritePart "out" sampleEnv ++ textPart "out" sampleEnv
            ++ monoPart "out" sampleEnv
      ∧ extractEvents "out" "ASTC_resources_metadata" sampleEnv
          = texPart "out" sampleEnv ++ spritePart "out" sampleEnv ++ textPart "out" sampleEnv :=
  ⟨(filename_dispatch "out" "ASTC_Resources_01" sampleEnv).1 (by decide) (by decide),
   (filename_dispatch "out" "ASTC_MetaData_01" sampleEnv).2.1 (by decide) (by decide),
   (filename_dispatch "out" "ASTC_plain" sampleEnv).2.2.1 (by decide) (by decide),
   (filename_dispatch "out" "ASTC_resources_metadata" sampleEnv).2.2.2 (by decide) (by decide)⟩

/-- Claim C1: every selected container object of type Texture2D or Sprite is
written as a `.png` under the `Texture2D/` or `Sprite/` subdirectory, every
selected TextAsset as a UTF-8 `.txt` under `TextAsset/`, and every selected
MonoBehaviour (drawn from the object list, with a nonempty typetree) as an
indented `.json` under `MonoBehaviour/`, provided the library operations on
that object succeed. -/
theorem objects_written_by_type :
    (∀ df fileName env path obj, (path, obj) ∈ env.container →
        obj.typeName = "Texture2D" →
        (extractResources fileName
          || !(extractResources fileName || extractMetadata fileName)) = true →
        obj.readOk = true → obj.saveOk = true →
        Event.write ⟨df, "Texture2D", outStem path ++ ".png"⟩ Content.png
          ∈ extractEvents df fileName env)
      ∧ (∀ df fileName env path obj, (path, obj) ∈ env.container →
          obj.typeName = "Sprite" →
          (extractResources fileName
            || !(extractResources fileName || extractMetadata fileName)) = true →
          obj.readOk = true → obj.saveOk = true →
          Event.write ⟨df, "Sprite", outStem path ++ ".png"⟩ Content.png
            ∈ extractEvents df fileName env)
      ∧ (∀ df fileName env path obj, (path, obj) ∈ env.container →
          obj.typeName = "TextAsset" →
          (extractMetadata fileName
            || !(extractResources fileName || extractMetadata fileName)) = true →
          obj.readOk = true → obj.taFirst = TAWrite.ok →
          Event.write ⟨df, "TextAsset", outStem path ++ ".txt"⟩
              (Content.text Enc.surrogatepass obj.script)
            ∈ extractEvents df fileName env)
      ∧ (∀ df fileName env obj, obj ∈ env.objects →
          obj.typeName = "MonoBehaviour" →
          (extractResources fileName || extractMetadata fileName) = false →
          obj.nodes ≠ [] → obj.readOk = true → obj.saveOk = true →
          Event.write ⟨df, "MonoBehaviour", monoName obj ++ ".json"⟩ (Content.json obj.tree)
            ∈ extractEvents df fileName env) := by
  refine ⟨?_, ?_, ?_, ?_⟩
  · intro df fn env path obj hm ht hsel hr hs
    have hstep : Event.write ⟨df, "Texture2D", outStem path ++ ".png"⟩ Content.png
        ∈ texStep df (path, obj) := by simp [texStep, ht, hr, hs]
    have hpart : Event.write ⟨df, "Texture2D", outStem path ++ ".png"⟩ Content.png
        ∈ texPart df env := mem_of_step hm hstep
    unfold extractEvents
    rw [hsel]
    simp only [if_true, Bool.true_eq]
    exact List.mem_append.mpr (Or.inl (List.mem_append.mpr (Or.inl
      (List.mem_append.mpr (Or.inl hpart)))))
  · intro df fn env path obj hm ht hsel hr hs
    have hstep : Event.write ⟨df, "Sprite", outStem path ++ ".png"⟩ Content.png
        ∈ spriteStep df (path, obj) := by simp [spriteStep, ht, hr, hs]
    have hpart : Event.write ⟨df, "Sprite", outStem path ++ ".png"⟩ Content.png
        ∈ spritePart df env := mem_of_step hm hstep
    unfold extractEvents
    rw [hsel]
    simp only [if_true, Bool.true_eq]
    exact List.mem_append.mpr (Or.inl (List.mem_append.mpr (Or.inl
      (List.mem_append.mpr (Or.inr hpart)))))
  · intro df fn env path obj hm ht hsel hr hf
    have hstep : Event.write ⟨df, "TextAsset", outStem path ++ ".txt"⟩
        (Content.text Enc.surrogatepass obj.script) ∈ textStep df (path, obj) := by
      simp [textStep, ht, hr, hf]
    have hpart : Event.write ⟨df, "TextAsset", outStem path ++ ".txt"⟩
        (Content.text Enc.surrogatepass obj.script) ∈ textPart df env := mem_of_step hm hstep
    unfold extractEvents
    rw [hsel]
    simp only [if_true, Bool.true_eq]
    exact List.mem_append.mpr (Or.inl (List.mem_append.mpr (Or.inr hpart)))
  · intro df fn env obj hm ht hsel hn hr hs
    have hstep : Event.write ⟨df, "MonoBehaviour", monoName obj ++ ".json"⟩
        (Content.json obj.tree) ∈ monoStep df obj := by
      simp [monoStep, ht, hn, hr, hs]
    have hpart : Event.write ⟨df, "MonoBehaviour", monoName obj ++ ".json"⟩
        (Content.json obj.tree) ∈ monoPart df env := mem_of_step hm hstep
    unfold extractEvents
    rw [hsel]
    simp only [Bool.not_false, if_true, Bool.true_eq]
    exact List.mem_append.mpr (Or.inr hpart)

/-- Concrete check for claim C1: one object of each type in a sample bundle
with no filename filter lands in its type's subdirectory with the expected
format. -/
theorem objects_written_by_type_check :
    Event.write ⟨"out", "Texture2D", outStem "a/tex.dds" ++ ".png"⟩ Content.png
        ∈ extractEvents "out" "ASTC_pack" sampleEnv
      ∧ Event.write ⟨"out", "Sprite", outStem "a/spr.png" ++ ".png"⟩ Content.png
          ∈ extractEvents "out" "ASTC_pack" sampleEnv
      ∧ Event.write ⟨"out", "TextAsset", outStem "a/note.bytes" ++ ".txt"⟩
            (Content.text Enc.surrogatepass sampleText.script)
          ∈ extractEvents "out" "ASTC_pack" sampleEnv
      ∧ Event.write ⟨"out", "MonoBehaviour", monoName sampleMono ++ ".json"⟩
            (Content.json sampleMono.tree)
          ∈ extractEvents "out" "ASTC_pack" sampleEnv :=
  ⟨objects_written_by_type.1 "out" "ASTC_pack" sampleEnv "a/tex.dds" sampleTex
     (by decide) rfl (by decide) rfl rfl,
   objects_written_by_type.2.1 "out" "ASTC_pack" sampleEnv "a/spr.png" sampleSprite
     (by decide) rfl (by decide) rfl rfl,
   objects_written_by_type.2.2.1 "out" "ASTC_pack" sampleEnv "a/note.bytes" sampleText
     (by decide) rfl (by decide) rfl rfl,
   objects_written_by_type.2.2.2 "out" "ASTC_pack" sampleEnv sampleMono
     (by decide) rfl (by decide) (by decide) rfl rfl⟩

/-- Claim C8: successful Texture2D, Sprite and TextAsset writes use the
uppercased basename of the container path with the extension replaced by
`.png` or `.txt`; a successful MonoBehaviour write uses the typetree's
`m_Name` in original case, or `MONO_<path_id>` when absent, with `.json`
appended; the uppercasing shows the container-path case is not preserved. -/
theorem output_filenames :
    (∀ df path obj, obj.typeName = "Texture2D" → obj.readOk = true → obj.saveOk = true →
        texStep df (path, obj)
          = [Event.write ⟨df, "Texture2D", splitextStem (upperStr (basenameStr path)) ++ ".png"⟩
               Content.png])
      ∧ (∀ df path obj, obj.typeName = "Sprite" → obj.readOk = true → obj.saveOk = true →
          spriteStep df (path, obj)
            = [Event.write ⟨df, "Sprite", splitextStem (upperStr (basenameStr path)) ++ ".png"⟩
                 Content.png])
      ∧ (∀ df path obj, obj.typeName = "TextAsset" → obj.readOk = true →
          obj.taFirst = TAWrite.ok →
          textStep df (path, obj)
            = [Event.write ⟨df, "TextAsset", splitextStem (upperStr (basenameStr path)) ++ ".txt"⟩
                 (Content.text Enc.surrogatepass obj.script)])
      ∧ (∀ df obj, obj.typeName = "MonoBehaviour" → obj.nodes ≠ [] →
          obj.readOk = true → obj.saveOk = true →
          monoStep df obj
            = [Event.write ⟨df, "MonoBehaviour",
                 ((List.lookup "m_Name" obj.tree).getD ("MONO_" ++ toString obj.pathId)) ++ ".json"⟩
                 (Content.json obj.tree)])
      ∧ outStem "assets/Icon.dds" = "ICON"
      ∧ (∀ obj, List.lookup "m_Name" obj.tree = none →
          monoName obj = "MONO_" ++ toString obj.pathId) := by
  refine ⟨?_, ?_, ?_, ?_, by decide, ?_⟩
  · intro df path obj ht hr hs
    simp [texStep, outStem, ht, hr, hs]
  · intro df path obj ht hr hs
    simp [spriteStep, outStem, ht, hr, hs]
  · intro df path obj ht hr hf
    simp [textStep, outStem, ht, hr, hf]
  · intro df obj ht hn hr hs
    simp [monoStep, monoName, ht, hn, hr, hs]
  · intro obj h
    simp [monoName, h]

/-- Concrete check for claim C8: the four naming rules on concrete objects,
including a MonoBehaviour without `m_Name`. -/
theorem output_filenames_check :
    texStep "out" ("a/Icon.dds", sampleTex)
        = [Event.write ⟨"out", "Texture2D",
             splitextStem (upperStr (basenameStr "a/Icon.dds")) ++ ".png"⟩ Content.png]
      ∧ spriteStep "out" ("a/Spr.tga", sampleSprite)
          = [Event.write ⟨"out", "Sprite",
               splitextStem (upperStr (basenameStr "a/Spr.tga")) ++ ".png"⟩ Content.png]
      ∧ textStep "out" ("a/Note.bytes", sampleText)
          = [Event.write ⟨"out", "TextAsset",
               splitextStem (upperStr (basenameStr "a/Note.bytes")) ++ ".txt"⟩
               (Content.text Enc.surrogatepass sampleText.script)]
      ∧ monoStep "out" sampleMono
          = [Event.write ⟨"out", "MonoBehaviour",
               ((List.lookup "m_Name" sampleMono.tree).getD
                 ("MONO_" ++ toString sampleMono.pathId)) ++ ".json"⟩
               (Content.json sampleMono.tree)]
      ∧ monoName ⟨"MonoBehaviour", 21, ["root"], [], "", true, true, .ok, true⟩
          = "MONO_" ++ toString (21 : Int) :=
  ⟨output_filenames.1 "out" "a/Icon.dds" sampleTex rfl rfl rfl,
   output_filenames.2.1 "out" "a/Spr.tga" sampleSprite rfl rfl rfl,
   output_filenames.2.2.1 "out" "a/Note.bytes" sampleText rfl rfl rfl,
   output_filenames.2.2.2.1 "out" sampleMono rfl (by decide) rfl rfl,
   output_filenames.2.2.2.2.2 ⟨"MonoBehaviour", 21, ["root"], [], "", true, true, .ok, true⟩
     rfl⟩

/-- Claim C6 counterexample: the parser configured in `main` defines no
debug-logging flag, and a debug flag on the command line is rejected as
unrecognized. -/
theorem no_debug_flag_defined :
    parseArgv ["-debug"] = ParseResult.parseError "unrecognized arguments: -debug"
      ∧ parseArgv ["--debug"] = ParseResult.parseError "unrecognized arguments: --debug"
      ∧ (mainOpts.filter fun o => hasSubstr (lowerStr o.flag) "debug") = [] := by
  refine ⟨by decide, by decide, by decide⟩

/-- Claim C6 amended: the command-line interface accepts only the optional
`-file INPUT_DIR OUTPUT_DIR` pair besides the automatic help flags; every
other option token is rejected as unrecognized, so no debug-logging flag
exists. -/
theorem cli_accepts_only_file_flag :
    parseArgv [] = ParseResult.parsed none
      ∧ (∀ a b, parseArgv ["-file", a, b] = ParseResult.parsed (some (a, b)))
      ∧ (∀ t rest, t ≠ "-file" → t ≠ "-h" → t ≠ "--help" →
          parseArgv (t :: rest) = ParseResult.parseError ("unrecognized arguments: " ++ t)) := by
  refine ⟨rfl, fun a b => rfl, fun t rest h1 h2 h3 => ?_⟩
  unfold parseArgv
  simp [h1, h2, h3]

/-- Concrete check for the amended claim C6. -/
theorem cli_accepts_only_file_flag_check :
    parseArgv ["-debug", "x"] = ParseResult.parseError ("unrecognized arguments: " ++ "-debug") :=
  cli_accepts_only_file_flag.2.2 "-debug" ["x"] (by decide) (by decide) (by decide)

/-- Claim C7 counterexample: a loose file named `__data` present in the walk
is not processed at all, even when it loads: no counter moves and no event is
produced, so no `__data` pass exists in this script. -/
theorem loose_data_file_not_processed :
    processFile "out" ⟨"__data", some sampleEnv⟩ ⟨3, 1, []⟩ = ⟨3, 1, []⟩
      ∧ unpack_all_assets "out" [[⟨"__data", some sampleEnv⟩]] = ⟨0, 0, []⟩ := by
  refine ⟨by decide, by decide⟩

/-- Claim C7 amended: execution is single-phase: `main` invokes
`unpack_all_assets` exactly once on the walk of the input directory, and a
file named `__data` is always skipped because its name lacks "ASTC", so no
second pass over the produced output directory occurs. -/
theorem single_phase_execution :
    (∀ fileArg cwd walk,
        mainRun fileArg cwd walk = unpack_all_assets (resolveDirs fileArg cwd).2 walk)
      ∧ (∀ df load r, processFile df ⟨"__data", load⟩ r = r) := by
  refine ⟨fun _ _ _ => rfl, fun df load r => ?_⟩
  have h : hasSubstr "__data" "ASTC" = false := by decide
  unfold processFile
  simp [h]

end AssetExtract
